import Mathlib

/-
  Verification development for a collection of Trilinos fragments:
  - Zoltan2_MappingProblem.hpp (zoltan2 mapping problem facade),
  - XROL_Objective (ROL abstract objective interface),
  - tUniqueGlobalIndexerUtilities.cpp (panzer unit tests),
  - Phalanx_Evaluator_Utilities.hpp (phalanx evaluator mixin),
  - Tpetra FECrsMatrix definition file,
  - a captured zdrive/Zoltan load-balancing log.
  Each namespace below embeds one fragment.
-/

namespace Zoltan2

/-- Exceptions thrown by the wrapped framework calls.  The concrete C++
exception types (std::runtime_error and friends) are irrelevant to the
control flow, so errors are an abstract type parameter in the definitions
below; here we fix a simple concrete carrier for witnesses. -/
abbrev Z2Error := String

/-- A MappingSolution.  Its internals are not in the sources
(Zoltan2_MappingSolution.hpp is not provided); modelled from the spec and
the doc comment of MappingProblem: the problem "sets up ... a Solution
object.  When the user calls the solve() method, the MappingProblem runs
the algorithm, after which the Solution object may be obtained by the
user."  The one observable we track is whether an algorithm has populated
the solution. -/
structure MappingSolution where
  populatedByAlgorithm : Bool
deriving DecidableEq, Repr

/-- A freshly constructed MappingSolution (new MappingSolution<Adapter>()):
no algorithm has populated it. -/
def freshMappingSolution : MappingSolution :=
  { populatedByAlgorithm := false }

/-- Modelled from the spec: CoordinateTaskMapper::map is the mapping
algorithm invoked by solve (its code is not in the sources); per the class
doc comment, running the algorithm populates the Solution object. -/
def coordinateTaskMapperMap (s : MappingSolution) : MappingSolution :=
  { s with populatedByAlgorithm := true }

/-- Modelled from the spec: the Z2_FORWARD_EXCEPTIONS macro (defined
outside the sources) is "a framework convention for exception
re-throwing": it catches each standard exception kind and immediately
re-throws it, so on the error path it forwards the error unchanged and on
the normal path it does nothing. -/
def Z2_FORWARD_EXCEPTIONS {E A : Type} : Except E A → Except E A
  | Except.ok a => Except.ok a
  | Except.error e => Except.error e

/-- A Teuchos::ParameterList restricted to what MappingProblem::solve
reads from it: string-valued entries looked up by name (getEntryPtr
returns null when the entry is absent). -/
abbrev ParameterList := List (String × String)

/-- getEntryPtr followed by getValue with the current value as default:
the parameter value when present, the default otherwise. -/
def getParamOr (pl : List (String × String)) (key dflt : String) : String :=
  match pl.lookup key with
  | some v => v
  | none => dflt

/-- MappingProblem::solve.  Embedded from the source: it first creates a
fresh MappingSolution inside a try block forwarded by
Z2_FORWARD_EXCEPTIONS, then reads the "mapping_algorithm" parameter
(starting from the default string defString, which is declared outside
this file), and inside a second forwarded try block invokes
CoordinateTaskMapper and its map method exactly when the chosen name is
"geometric".  The allocation of the solution and the algorithm run are
the two fallible operations, passed in as Except computations; the result
records the final solution together with whether the algorithm was
invoked. -/
def solve {E : Type} (defString : String) (pl : List (String × String))
    (mkSoln : Except E MappingSolution)
    (algMap : MappingSolution → Except E MappingSolution) :
    Except E (MappingSolution × Bool) :=
  match Z2_FORWARD_EXCEPTIONS mkSoln with
  | Except.error e => Except.error e
  | Except.ok soln =>
      let algName := getParamOr pl "mapping_algorithm" defString
      if algName = "geometric" then
        match Z2_FORWARD_EXCEPTIONS (algMap soln) with
        | Except.error e => Except.error e
        | Except.ok soln2 => Except.ok (soln2, true)
      else
        Except.ok (soln, false)

/-- The non-throwing run of solve: the solution allocation succeeds and
CoordinateTaskMapper::map runs normally. -/
def solveRun (defString : String) (pl : List (String × String)) :
    Except Z2Error (MappingSolution × Bool) :=
  solve defString pl (Except.ok freshMappingSolution)
    (fun s => Except.ok (coordinateTaskMapperMap s))

/-- MappingProblem::createMappingProblem.  Embedded from the source: the
partitioning solution pointer is stored when non-null; the machine
pointer is stored when non-null, and otherwise a new MachineRepresentation
is created inside a try block forwarded by Z2_FORWARD_EXCEPTIONS.  The
machine construction is the one fallible operation, passed in as an
Except computation; M abstracts the MachineRepresentation and P the
PartitioningSolution. -/
def createMappingProblem {E P M : Type} (partSoln_ : Option P)
    (machine_ : Option M) (mkMachine : Except E M) :
    Except E (Option P × M) :=
  match machine_ with
  | some m => Except.ok (partSoln_, m)
  | none =>
      match Z2_FORWARD_EXCEPTIONS mkMachine with
      | Except.error e => Except.error e
      | Except.ok m => Except.ok (partSoln_, m)

end Zoltan2

namespace XROL

/-- The virtual methods declared by the XROL::Objective class template
(XROL_Objective.hpp), together with the non-virtual checking helpers that
the same class declares. -/
inductive ObjectiveMethod where
  | setParameters
  | access
  | update
  | value
  | gradient
  | dirDeriv
  | hessVec
  | invHessVec
  | precond
deriving DecidableEq, Repr

/-- The possible shapes of a method body in the Objective class. -/
inductive MethodBody where
  /-- Declared "= 0": no body, must be supplied by the user. -/
  | pureVirtual
  /-- Body is a single call on the Impl member pObjImpl_. -/
  | delegatesToImpl
  /-- Body is a single ignore(...) call on the arguments: a no-op. -/
  | ignoresArgs
  /-- Body stores the moved argument into the param_ member. -/
  | storesParam
deriving DecidableEq, Repr

/-- The body of each virtual method of XROL::Objective, read off the
source: setParameters moves its argument into param_; access, update,
invHessVec and precond call ignore on their arguments; value is pure
virtual; gradient, dirDeriv and hessVec call the corresponding member of
pObjImpl_. -/
def objectiveMethodBody : ObjectiveMethod → MethodBody
  | ObjectiveMethod.setParameters => MethodBody.storesParam
  | ObjectiveMethod.access => MethodBody.ignoresArgs
  | ObjectiveMethod.update => MethodBody.ignoresArgs
  | ObjectiveMethod.value => MethodBody.pureVirtual
  | ObjectiveMethod.gradient => MethodBody.delegatesToImpl
  | ObjectiveMethod.dirDeriv => MethodBody.delegatesToImpl
  | ObjectiveMethod.hessVec => MethodBody.delegatesToImpl
  | ObjectiveMethod.invHessVec => MethodBody.ignoresArgs
  | ObjectiveMethod.precond => MethodBody.ignoresArgs

/-- The seven non-pure virtual methods the claim enumerates. -/
def claimedNonPureVirtuals : List ObjectiveMethod :=
  [ObjectiveMethod.update, ObjectiveMethod.access, ObjectiveMethod.gradient,
   ObjectiveMethod.dirDeriv, ObjectiveMethod.hessVec,
   ObjectiveMethod.invHessVec, ObjectiveMethod.precond]

end XROL

namespace Tpetra

/-- The two values of the active-matrix flag read and written by
FECrsMatrix::switchActiveCrsMatrix. -/
inductive FEWhichActive where
  | FE_ACTIVE_OVERLAP
  | FE_ACTIVE_LOCAL
deriving DecidableEq, Repr

/-- The state of an FECrsMatrix as far as the provided definition file
touches it: the flag pointed to by activeCrsMatrix_, the possibly null
inactiveCrsMatrix_, and the remaining state (the inherited CrsMatrix data
and any other members), abstracted by the type parameters M and R. -/
structure FECrsMatrix (M R : Type) where
  activeCrsMatrix_ : FEWhichActive
  inactiveCrsMatrix_ : Option M
  rest : R
deriving DecidableEq, Repr

/-- FECrsMatrix::switchActiveCrsMatrix, embedded from the source: the
flag FE_ACTIVE_OVERLAP becomes FE_ACTIVE_LOCAL and otherwise the flag
becomes FE_ACTIVE_OVERLAP; if inactiveCrsMatrix_ is null the method
returns, and the subsequent matrix swap is commented out (FIXME), so in
either case nothing else changes. -/
def switchActiveCrsMatrix {M R : Type} (A : FECrsMatrix M R) :
    FECrsMatrix M R :=
  { A with
    activeCrsMatrix_ :=
      if A.activeCrsMatrix_ = FEWhichActive.FE_ACTIVE_OVERLAP then
        FEWhichActive.FE_ACTIVE_LOCAL
      else
        FEWhichActive.FE_ACTIVE_OVERLAP }

/-- FECrsMatrix::operator=, embedded from the source: the body is
"return *this;" and nothing else, so the target is returned unchanged and
the right-hand side is never read. -/
def assignFECrsMatrix {M R : Type} (self rhs : FECrsMatrix M R) :
    FECrsMatrix M R :=
  let _unusedRhs := rhs
  self

end Tpetra

namespace PHX

/-- The bookkeeping state of PHX::EvaluatorUtilities, from the header:
the list evaluated_ of evaluated field tags, the list required_ of
dependent field tags, and the evaluator name name_.  The FieldTag class
itself is abstract; its data is irrelevant here, so it is a type
parameter. -/
structure EvaluatorUtilities (Tag : Type) where
  evaluated_ : List Tag
  required_ : List Tag
  name_ : String
deriving DecidableEq, Repr

/-- A default-constructed EvaluatorUtilities: both field lists empty. -/
def emptyEvaluatorUtilities (Tag : Type) : EvaluatorUtilities Tag :=
  { evaluated_ := [], required_ := [], name_ := "" }

/-- Modelled from the spec: EvaluatorUtilities::addEvaluatedField
(implemented in Phalanx_Evaluator_Utilities_Def.hpp, which is not among
the sources; the header declares it and the spec calls the class
"bookkeeping for dependent/evaluated field lists"): the tag is appended
to the evaluated_ list, in registration order. -/
def addEvaluatedField {Tag : Type} (e : EvaluatorUtilities Tag) (v : Tag) :
    EvaluatorUtilities Tag :=
  { e with evaluated_ := e.evaluated_ ++ [v] }

/-- Modelled from the spec: EvaluatorUtilities::addDependentField
(implemented in the Def header, not among the sources): the tag is
appended to the required_ list, in registration order. -/
def addDependentField {Tag : Type} (e : EvaluatorUtilities Tag) (v : Tag) :
    EvaluatorUtilities Tag :=
  { e with required_ := e.required_ ++ [v] }

/-- EvaluatorUtilities::evaluatedFields, modelled from the spec: returns
the evaluated_ list. -/
def evaluatedFields {Tag : Type} (e : EvaluatorUtilities Tag) : List Tag :=
  e.evaluated_

/-- EvaluatorUtilities::dependentFields, modelled from the spec: returns
the required_ list. -/
def dependentFields {Tag : Type} (e : EvaluatorUtilities Tag) : List Tag :=
  e.required_

/-- One registration call made on an EvaluatorUtilities object. -/
inductive RegOp (Tag : Type) where
  | evaluated (t : Tag)
  | dependent (t : Tag)
deriving DecidableEq, Repr

/-- Run a sequence of registration calls, left to right. -/
def applyRegOps {Tag : Type} (e : EvaluatorUtilities Tag) :
    List (RegOp Tag) → EvaluatorUtilities Tag
  | [] => e
  | RegOp.evaluated t :: ops => applyRegOps (addEvaluatedField e t) ops
  | RegOp.dependent t :: ops => applyRegOps (addDependentField e t) ops

/-- The tags of the addEvaluatedField calls in a call sequence, in
order. -/
def evaluatedTags {Tag : Type} (ops : List (RegOp Tag)) : List Tag :=
  ops.filterMap fun op =>
    match op with
    | RegOp.evaluated t => some t
    | RegOp.dependent _ => none

/-- The tags of the addDependentField calls in a call sequence, in
order. -/
def dependentTags {Tag : Type} (ops : List (RegOp Tag)) : List Tag :=
  ops.filterMap fun op =>
    match op with
    | RegOp.evaluated _ => none
    | RegOp.dependent t => some t

end PHX

namespace Panzer

/-- Modelled from the spec: panzer::buildGhostedFieldVector applied to
the unit-test UniqueGlobalIndexer (both live outside the provided
sources; only the test tUniqueGlobalIndexerUtilities.cpp is given).  The
spec fixes its behavior solely through the literal expected-value tables
of the unit test for a specific 2-process run: on rank 0 a
14-entry field-number vector, on rank 1 a 12-entry one, with the entries
the test asserts. -/
def buildGhostedFieldVector : Int → List Int
  | 0 => [0, 1, 0, 1, 0, 1, 0, 1, 0, 1, 0, 0, 0, 1]
  | 1 => [0, 1, 0, 1, 0, 1, 0, 1, 0, 0, 0, 0]
  | _ => []

/-- Modelled from the spec: the length of the owned-and-shared index
list that getOwnedAndSharedIndices of the unit-test UniqueGlobalIndexer
fills (the indexer lives outside the provided sources).  The test
asserts that the ghosted field vector and this list have equal sizes, and
its rank-0 table checks 14 entries and its rank-1 table 12. -/
def numOwnedAndShared : Int → Nat
  | 0 => 14
  | 1 => 12
  | _ => 0

/-- The rank-0 expected-value table of the GhostedFieldVector unit test,
read off its fourteen TEST_EQUALITY lines in index order. -/
def expectedGhostedFieldsRank0 : List Int :=
  [0, 1, 0, 1, 0, 1, 0, 1, 0, 1, 0, 0, 0, 1]

/-- The rank-1 expected-value table of the GhostedFieldVector unit test,
read off its twelve TEST_EQUALITY lines in index order. -/
def expectedGhostedFieldsRank1 : List Int :=
  [0, 1, 0, 1, 0, 1, 0, 1, 0, 0, 0, 0]

/-- The TEUCHOS_ASSERT statements appearing in the unit tests. -/
inductive AssertId where
  /-- TEUCHOS_ASSERT(numProcs==2) at the top of each test. -/
  | numProcsIsTwo
  /-- TEUCHOS_ASSERT(false) in the final else branch of each test. -/
  | unreachableRank
deriving DecidableEq, Repr

/-- The observable outcome of running one unit test on a given rank:
how many TEST_EQUALITY / TEST_COMPARE checks were evaluated before the
test either finished or was aborted by a firing TEUCHOS_ASSERT. -/
structure TestOutcome where
  checksEvaluated : Nat
  aborted : Option AssertId
deriving DecidableEq, Repr

/-- The GhostedFieldVector unit test, embedded from the source: assert
numProcs==2; evaluate the size-equality and min-element checks (2
checks); then on rank 0 the 14 table checks, on rank 1 the 12 table
checks, and on any other rank TEUCHOS_ASSERT(false). -/
def ghostedFieldVectorTest (myRank numProcs : Int) : TestOutcome :=
  if numProcs = 2 then
    if myRank = 0 then { checksEvaluated := 2 + 14, aborted := none }
    else if myRank = 1 then { checksEvaluated := 2 + 12, aborted := none }
    else { checksEvaluated := 2, aborted := some AssertId.unreachableRank }
  else { checksEvaluated := 0, aborted := some AssertId.numProcsIsTwo }

/-- The updateGhostedDataVector unit test, embedded from the source:
assert numProcs==2; evaluate the two local-length checks; then on rank 0
the 8 + 4 table checks, on rank 1 likewise 8 + 4, and on any other rank
TEUCHOS_ASSERT(false). -/
def updateGhostedDataVectorTest (myRank numProcs : Int) : TestOutcome :=
  if numProcs = 2 then
    if myRank = 0 then { checksEvaluated := 2 + 12, aborted := none }
    else if myRank = 1 then { checksEvaluated := 2 + 12, aborted := none }
    else { checksEvaluated := 2, aborted := some AssertId.unreachableRank }
  else { checksEvaluated := 0, aborted := some AssertId.numProcsIsTwo }

/-- The ArrayToFieldVector_ghost unit test, embedded from the source:
assert numProcs==2; then on rank 0 its 2 length checks plus 8 + 6 table
checks, on rank 1 its 2 length checks plus 8 + 4 table checks, and on
any other rank TEUCHOS_ASSERT(false). -/
def arrayToFieldVectorGhostTest (myRank numProcs : Int) : TestOutcome :=
  if numProcs = 2 then
    if myRank = 0 then { checksEvaluated := 2 + 14, aborted := none }
    else if myRank = 1 then { checksEvaluated := 2 + 12, aborted := none }
    else { checksEvaluated := 0, aborted := some AssertId.unreachableRank }
  else { checksEvaluated := 0, aborted := some AssertId.numProcsIsTwo }

/-- The ArrayToFieldVector unit test, embedded from the source: assert
numProcs==2; then on rank 0 its 2 length checks plus 6 + 5 table checks,
on rank 1 its 2 length checks plus 4 + 1 table checks, and on any other
rank TEUCHOS_ASSERT(false). -/
def arrayToFieldVectorTest (myRank numProcs : Int) : TestOutcome :=
  if numProcs = 2 then
    if myRank = 0 then { checksEvaluated := 2 + 11, aborted := none }
    else if myRank = 1 then { checksEvaluated := 2 + 5, aborted := none }
    else { checksEvaluated := 0, aborted := some AssertId.unreachableRank }
  else { checksEvaluated := 0, aborted := some AssertId.numProcsIsTwo }

/-- One iteration of the column loop of the ArrayToFieldVector_multicol
unit test: if the test has already been aborted nothing more runs;
otherwise rank 0 evaluates its 2 + 6 + 5 checks, rank 1 its 2 + 4 + 1
checks, and any other rank hits TEUCHOS_ASSERT(false). -/
def multicolIteration (myRank : Int) (st : TestOutcome) : TestOutcome :=
  match st.aborted with
  | some _ => st
  | none =>
      if myRank = 0 then { st with checksEvaluated := st.checksEvaluated + 13 }
      else if myRank = 1 then { st with checksEvaluated := st.checksEvaluated + 7 }
      else { st with aborted := some AssertId.unreachableRank }

/-- The ArrayToFieldVector_multicol unit test, embedded from the source:
assert numProcs==2; evaluate the two getNumVectors checks; then loop the
per-column checks over the 5 columns. -/
def arrayToFieldVectorMulticolTest (myRank numProcs : Int) : TestOutcome :=
  if numProcs = 2 then
    (List.range 5).foldl (fun st _ => multicolIteration myRank st)
      { checksEvaluated := 2, aborted := none }
  else { checksEvaluated := 0, aborted := some AssertId.numProcsIsTwo }

/-- All unit tests of tUniqueGlobalIndexerUtilities.cpp, as functions of
the rank and process count. -/
def allUnitTests : List (Int → Int → TestOutcome) :=
  [ghostedFieldVectorTest, updateGhostedDataVectorTest,
   arrayToFieldVectorGhostTest, arrayToFieldVectorTest,
   arrayToFieldVectorMulticolTest]

end Panzer

namespace ZoltanLog

/-- One Min/Max/Sum row of an object-count statistics table in the
captured zdrive load-balancing log, tagged with the phase (before or
after load balancing) and the table it appears in. -/
structure ObjCountStat where
  afterLB : Bool
  table : String
  statMin : Int
  statMax : Int
  statSum : Int
deriving DecidableEq, Repr

/-- Every number-of-objects statistics row of the captured log, read off
the transcript: the DRIVER EVAL objs lines and the Number of objects
rows of the Zoltan_LB_Eval_Balance, Zoltan_LB_Eval_Graph and
Zoltan_LB_Eval_HG tables, before and after load balancing.  In the
after-phase Balance table the Min column header is garbled by
interleaved malloc-count lines, but the data row reads 95, 95, 380. -/
def objectCountStats : List ObjCountStat :=
  [ { afterLB := false, table := "DRIVER EVAL objs",
      statMin := 76, statMax := 76, statSum := 380 },
    { afterLB := false, table := "Zoltan_LB_Eval_Balance",
      statMin := 76, statMax := 76, statSum := 380 },
    { afterLB := false, table := "Zoltan_LB_Eval_Graph",
      statMin := 76, statMax := 76, statSum := 380 },
    { afterLB := false, table := "Zoltan_LB_Eval_HG",
      statMin := 76, statMax := 76, statSum := 380 },
    { afterLB := true, table := "DRIVER EVAL objs",
      statMin := 0, statMax := 285, statSum := 380 },
    { afterLB := true, table := "Zoltan_LB_Eval_Balance",
      statMin := 95, statMax := 95, statSum := 380 },
    { afterLB := true, table := "Zoltan_LB_Eval_Graph",
      statMin := 95, statMax := 95, statSum := 380 },
    { afterLB := true, table := "Zoltan_LB_Eval_HG",
      statMin := 95, statMax := 95, statSum := 380 } ]

end ZoltanLog

/-! Theorems settling the claims. -/

/-- The result of the non-throwing run of MappingProblem::solve, as a
function of the effective algorithm name. -/
theorem Zoltan2.solveRun_eq (defString : String) (pl : Zoltan2.ParameterList) :
    Zoltan2.solveRun defString pl =
      (if Zoltan2.getParamOr pl "mapping_algorithm" defString = "geometric" then
        Except.ok (Zoltan2.coordinateTaskMapperMap Zoltan2.freshMappingSolution, true)
      else
        Except.ok (Zoltan2.freshMappingSolution, false)) := by
  unfold Zoltan2.solveRun Zoltan2.solve Zoltan2.Z2_FORWARD_EXCEPTIONS
  by_cases hg :
      Zoltan2.getParamOr pl "mapping_algorithm" defString = "geometric" <;>
    simp [hg]

/-- C1: MappingProblem::solve selects the mapping algorithm from the
string parameter "mapping_algorithm": on every call it first creates a
fresh MappingSolution, and it invokes CoordinateTaskMapper::map exactly
when the parameter value equals "geometric"; for every other parameter
value, and when the parameter is absent, solve invokes no algorithm and
returns with the fresh, unpopulated solution.  The default name
defString is declared outside the provided sources; the hypothesis
records that it differs from "geometric". -/
theorem mappingProblem_solve_selects_algorithm
    (defString : String) (hdef : defString ≠ "geometric")
    (pl : Zoltan2.ParameterList) :
    (∃ s, Zoltan2.solveRun defString pl = Except.ok s ∧
       (s.2 = true ↔ pl.lookup "mapping_algorithm" = some "geometric")) ∧
    (pl.lookup "mapping_algorithm" ≠ some "geometric" →
       Zoltan2.solveRun defString pl =
         Except.ok (Zoltan2.freshMappingSolution, false)) ∧
    (pl.lookup "mapping_algorithm" = some "geometric" →
       Zoltan2.solveRun defString pl =
         Except.ok
           (Zoltan2.coordinateTaskMapperMap Zoltan2.freshMappingSolution,
            true)) := by
  have hrun := Zoltan2.solveRun_eq defString pl
  unfold Zoltan2.getParamOr at hrun
  cases hlook : pl.lookup "mapping_algorithm" with
  | none =>
      rw [hlook] at hrun
      rw [if_neg hdef] at hrun
      refine ⟨⟨(Zoltan2.freshMappingSolution, false), hrun, by simp [hlook]⟩, ?_, ?_⟩
      · intro _; exact hrun
      · intro hgeom; exact absurd hgeom (by simp [hlook])
  | some v =>
      rw [hlook] at hrun
      by_cases hv : v = "geometric"
      · subst hv
        rw [if_pos rfl] at hrun
        refine ⟨⟨(Zoltan2.coordinateTaskMapperMap Zoltan2.freshMappingSolution,
                  true), hrun, by simp [hlook]⟩, ?_, ?_⟩
        · intro hne; exact absurd (by simp [hlook]) hne
        · intro _; exact hrun
      · rw [if_neg hv] at hrun
        refine ⟨⟨(Zoltan2.freshMappingSolution, false), hrun, ?_⟩, ?_, ?_⟩
        · simp [hlook, hv]
        · intro _; exact hrun
        · intro hgeom
          exact absurd (Option.some.inj hgeom) hv

/-- Witness for C1: with default name "default", a parameter list that
sets "mapping_algorithm" to "geometric" makes solve run the algorithm on
the fresh solution, and an empty parameter list leaves the fresh
solution untouched. -/
theorem mappingProblem_solve_selects_algorithm_witness :
    Zoltan2.solveRun "default" [("mapping_algorithm", "geometric")] =
      Except.ok
        (Zoltan2.coordinateTaskMapperMap Zoltan2.freshMappingSolution, true) ∧
    Zoltan2.solveRun "default" [] =
      Except.ok (Zoltan2.freshMappingSolution, false) :=
  ⟨(mappingProblem_solve_selects_algorithm "default" (by decide)
      [("mapping_algorithm", "geometric")]).2.2 (by decide),
   (mappingProblem_solve_selects_algorithm "default" (by decide) []).2.1
      (by decide)⟩

/-- Counterexample to C2 as stated: update is one of the seven non-pure
virtual methods the claim enumerates, yet its body is a single
ignore(x) call, not a delegation to pObjImpl_; so it is false that every
one of those methods purely delegates to the Impl object. -/
theorem xrolObjective_not_all_methods_delegate :
    XROL.ObjectiveMethod.update ∈ XROL.claimedNonPureVirtuals ∧
    XROL.objectiveMethodBody XROL.ObjectiveMethod.update =
      XROL.MethodBody.ignoresArgs ∧
    ¬ (∀ m ∈ XROL.claimedNonPureVirtuals,
        XROL.objectiveMethodBody m = XROL.MethodBody.delegatesToImpl) := by
  decide

/-- C2 (amended): of the virtual methods of XROL::Objective, only value
is pure virtual; gradient, dirDeriv and hessVec delegate to the
finite-difference Impl object pObjImpl_; update, access, invHessVec and
precond merely ignore their arguments (no-op bodies, no delegation); and
setParameters stores its argument. -/
theorem xrolObjective_method_bodies :
    XROL.objectiveMethodBody XROL.ObjectiveMethod.value =
      XROL.MethodBody.pureVirtual ∧
    XROL.objectiveMethodBody XROL.ObjectiveMethod.gradient =
      XROL.MethodBody.delegatesToImpl ∧
    XROL.objectiveMethodBody XROL.ObjectiveMethod.dirDeriv =
      XROL.MethodBody.delegatesToImpl ∧
    XROL.objectiveMethodBody XROL.ObjectiveMethod.hessVec =
      XROL.MethodBody.delegatesToImpl ∧
    XROL.objectiveMethodBody XROL.ObjectiveMethod.update =
      XROL.MethodBody.ignoresArgs ∧
    XROL.objectiveMethodBody XROL.ObjectiveMethod.access =
      XROL.MethodBody.ignoresArgs ∧
    XROL.objectiveMethodBody XROL.ObjectiveMethod.invHessVec =
      XROL.MethodBody.ignoresArgs ∧
    XROL.objectiveMethodBody XROL.ObjectiveMethod.precond =
      XROL.MethodBody.ignoresArgs ∧
    XROL.objectiveMethodBody XROL.ObjectiveMethod.setParameters =
      XROL.MethodBody.storesParam ∧
    (∀ m, XROL.objectiveMethodBody m = XROL.MethodBody.pureVirtual ↔
       m = XROL.ObjectiveMethod.value) := by
  refine ⟨rfl, rfl, rfl, rfl, rfl, rfl, rfl, rfl, rfl, ?_⟩
  intro m
  cases m <;> simp [XROL.objectiveMethodBody]

/-- Witness for C2: evaluating the method-body table at the concrete
method value yields a pure virtual body. -/
theorem xrolObjective_method_bodies_witness :
    XROL.objectiveMethodBody XROL.ObjectiveMethod.value =
      XROL.MethodBody.pureVirtual :=
  (xrolObjective_method_bodies.2.2.2.2.2.2.2.2.2
    XROL.ObjectiveMethod.value).mpr rfl

/-- C3: the ghosted field-number vector of the 2-process run matches the
expected-value tables of the GhostedFieldVector unit test: on rank 0 the
14-entry vector 0,1,0,1,0,1,0,1,0,1,0,0,0,1 and on rank 1 the 12-entry
vector 0,1,0,1,0,1,0,1,0,0,0,0, entry by entry. -/
theorem ghostedFieldVector_expected_tables :
    Panzer.buildGhostedFieldVector 0 = Panzer.expectedGhostedFieldsRank0 ∧
    (Panzer.buildGhostedFieldVector 0).length = 14 ∧
    Panzer.buildGhostedFieldVector 1 = Panzer.expectedGhostedFieldsRank1 ∧
    (Panzer.buildGhostedFieldVector 1).length = 12 := by
  refine ⟨rfl, rfl, rfl, rfl⟩

/-- C4: every unit test of tUniqueGlobalIndexerUtilities.cpp requires
exactly 2 MPI processes: whenever numProcs is not 2 the
TEUCHOS_ASSERT(numProcs==2) fires before any expected-value check is
evaluated, and when numProcs is 2 (so that the MPI rank is 0 or 1) the
final TEUCHOS_ASSERT(false) branch of each test is unreachable.  The
file contains five such tests; the property holds for each of them. -/
theorem unit_tests_require_two_procs (myRank numProcs : Int) :
    (numProcs ≠ 2 →
      ∀ t ∈ Panzer.allUnitTests,
        t myRank numProcs =
          { checksEvaluated := 0,
            aborted := some Panzer.AssertId.numProcsIsTwo }) ∧
    (numProcs = 2 → 0 ≤ myRank → myRank < numProcs →
      ∀ t ∈ Panzer.allUnitTests,
        (t myRank numProcs).aborted ≠
          some Panzer.AssertId.unreachableRank) := by
  constructor
  · intro hne t ht
    simp only [Panzer.allUnitTests, List.mem_cons, List.mem_singleton] at ht
    rcases ht with rfl | rfl | rfl | rfl | rfl | h
    · simp [Panzer.ghostedFieldVectorTest, hne]
    · simp [Panzer.updateGhostedDataVectorTest, hne]
    · simp [Panzer.arrayToFieldVectorGhostTest, hne]
    · simp [Panzer.arrayToFieldVectorTest, hne]
    · simp [Panzer.arrayToFieldVectorMulticolTest, hne]
    · exact absurd h (List.not_mem_nil t)
  · intro h2 h0 hlt t ht
    subst h2
    have hrank : myRank = 0 ∨ myRank = 1 := by omega
    simp only [Panzer.allUnitTests, List.mem_cons, List.mem_singleton] at ht
    rcases ht with rfl | rfl | rfl | rfl | rfl | h
    all_goals
      first
        | exact absurd h (List.not_mem_nil t)
        | (rcases hrank with rfl | rfl <;> decide)

/-- Witness for C4: on a 3-process run the GhostedFieldVector test
aborts at the numProcs assertion with no checks evaluated, and on a
2-process run at rank 0 it does not hit the TEUCHOS_ASSERT(false)
branch. -/
theorem unit_tests_require_two_procs_witness :
    Panzer.ghostedFieldVectorTest 0 3 =
      { checksEvaluated := 0,
        aborted := some Panzer.AssertId.numProcsIsTwo } ∧
    (Panzer.ghostedFieldVectorTest 0 2).aborted ≠
      some Panzer.AssertId.unreachableRank := by
  constructor
  · exact (unit_tests_require_two_procs 0 3).1 (by decide)
      Panzer.ghostedFieldVectorTest (by simp [Panzer.allUnitTests])
  · exact (unit_tests_require_two_procs 0 2).2 rfl (by decide) (by decide)
      Panzer.ghostedFieldVectorTest (by simp [Panzer.allUnitTests])

/-- C5: for the 2-process run, the ghosted field-number vector has
exactly the length of the owned-and-shared index list, and each of its
entries is greater than -1, i.e. a non-negative field number. -/
theorem ghostedFieldVector_length_and_nonneg (r : Int)
    (h : r = 0 ∨ r = 1) :
    (Panzer.buildGhostedFieldVector r).length = Panzer.numOwnedAndShared r ∧
    ∀ x ∈ Panzer.buildGhostedFieldVector r, -1 < x := by
  rcases h with rfl | rfl <;> decide

/-- Witness for C5: the rank-0 instance. -/
theorem ghostedFieldVector_length_and_nonneg_witness :
    (Panzer.buildGhostedFieldVector 0).length = Panzer.numOwnedAndShared 0 ∧
    ∀ x ∈ Panzer.buildGhostedFieldVector 0, -1 < x :=
  ghostedFieldVector_length_and_nonneg 0 (Or.inl rfl)

/-- C6: each try block of MappingProblem is followed by
Z2_FORWARD_EXCEPTIONS, so an exception thrown while creating the
MappingSolution or while running the mapping algorithm inside solve, or
while creating the MachineRepresentation inside createMappingProblem, is
forwarded unchanged to the caller; no error is handled or swallowed
locally, and a normal result is returned exactly when no wrapped call
threw. -/
theorem mappingProblem_forwards_exceptions (E P M : Type)
    (defString : String) (pl : Zoltan2.ParameterList)
    (mkSoln : Except E Zoltan2.MappingSolution)
    (algMap : Zoltan2.MappingSolution → Except E Zoltan2.MappingSolution)
    (partSoln_ : Option P) (mkMachine : Except E M) :
    (∀ e, mkSoln = Except.error e →
       Zoltan2.solve defString pl mkSoln algMap = Except.error e) ∧
    (∀ s e, mkSoln = Except.ok s →
       Zoltan2.getParamOr pl "mapping_algorithm" defString = "geometric" →
       algMap s = Except.error e →
       Zoltan2.solve defString pl mkSoln algMap = Except.error e) ∧
    (∀ e, mkMachine = Except.error e →
       Zoltan2.createMappingProblem partSoln_ (none : Option M) mkMachine =
         Except.error e) ∧
    (∀ r, Zoltan2.solve defString pl mkSoln algMap = Except.ok r →
       ∃ s, mkSoln = Except.ok s ∧
         (Zoltan2.getParamOr pl "mapping_algorithm" defString = "geometric" →
           ∃ s2, algMap s = Except.ok s2)) := by
  refine ⟨?_, ?_, ?_, ?_⟩
  · intro e he
    subst he
    rfl
  · intro s e hs hgeom halg
    subst hs
    unfold Zoltan2.solve Zoltan2.Z2_FORWARD_EXCEPTIONS
    simp [hgeom, halg]
  · intro e he
    subst he
    rfl
  · intro r hr
    cases hmk : mkSoln with
    | error e =>
        subst hmk
        exact absurd hr (by simp [Zoltan2.solve, Zoltan2.Z2_FORWARD_EXCEPTIONS])
    | ok s =>
        subst hmk
        refine ⟨s, rfl, ?_⟩
        intro hgeom
        cases halg : algMap s with
        | error e =>
            rw [Zoltan2.solve] at hr
            simp [Zoltan2.Z2_FORWARD_EXCEPTIONS, hgeom, halg] at hr
        | ok s2 => exact ⟨s2, rfl⟩

/-- Witness for C6: a failing solution allocation, a failing algorithm
run under the "geometric" parameter, and a failing machine construction
each surface as the same error at the call site. -/
theorem mappingProblem_forwards_exceptions_witness :
    Zoltan2.solve "default" [] (Except.error "bad_alloc")
      (fun s => Except.ok (Zoltan2.coordinateTaskMapperMap s)) =
      Except.error "bad_alloc" ∧
    Zoltan2.solve "default" [("mapping_algorithm", "geometric")]
      (Except.ok Zoltan2.freshMappingSolution)
      (fun _ => Except.error "map_failed") =
      Except.error "map_failed" ∧
    Zoltan2.createMappingProblem (none : Option Unit) (none : Option Unit)
      (Except.error "machine_failed" : Except Zoltan2.Z2Error Unit) =
      Except.error "machine_failed" := by
  refine ⟨?_, ?_, ?_⟩
  · exact (mappingProblem_forwards_exceptions Zoltan2.Z2Error Unit Unit
      "default" [] (Except.error "bad_alloc")
      (fun s => Except.ok (Zoltan2.coordinateTaskMapperMap s))
      none (Except.ok ())).1 "bad_alloc" rfl
  · exact (mappingProblem_forwards_exceptions Zoltan2.Z2Error Unit Unit
      "default" [("mapping_algorithm", "geometric")]
      (Except.ok Zoltan2.freshMappingSolution)
      (fun _ => Except.error "map_failed")
      none (Except.ok ())).2.1 Zoltan2.freshMappingSolution "map_failed"
      rfl (by decide) rfl
  · exact (mappingProblem_forwards_exceptions Zoltan2.Z2Error Unit Unit
      "default" [] (Except.ok Zoltan2.freshMappingSolution)
      (fun s => Except.ok s) (none : Option Unit)
      (Except.error "machine_failed")).2.2.1 "machine_failed" rfl

/-- Helper for C7: running a registration sequence appends the evaluated
tags to the evaluated_ list and the dependent tags to the required_
list, each in call order, and leaves the name unchanged. -/
theorem PHX.applyRegOps_spec {Tag : Type} (e : PHX.EvaluatorUtilities Tag)
    (ops : List (PHX.RegOp Tag)) :
    PHX.evaluatedFields (PHX.applyRegOps e ops) =
      PHX.evaluatedFields e ++ PHX.evaluatedTags ops ∧
    PHX.dependentFields (PHX.applyRegOps e ops) =
      PHX.dependentFields e ++ PHX.dependentTags ops := by
  induction ops generalizing e with
  | nil =>
      simp [PHX.applyRegOps, PHX.evaluatedTags, PHX.dependentTags]
  | cons op ops ih =>
      cases op with
      | evaluated t =>
          have h := ih (PHX.addEvaluatedField e t)
          simpa [PHX.applyRegOps, PHX.evaluatedTags, PHX.dependentTags,
                 PHX.addEvaluatedField, PHX.evaluatedFields,
                 PHX.dependentFields, List.filterMap_cons,
                 List.append_assoc] using h
      | dependent t =>
          have h := ih (PHX.addDependentField e t)
          simpa [PHX.applyRegOps, PHX.evaluatedTags, PHX.dependentTags,
                 PHX.addDependentField, PHX.evaluatedFields,
                 PHX.dependentFields, List.filterMap_cons,
                 List.append_assoc] using h

/-- C7: EvaluatorUtilities keeps two separate field lists: after any
sequence of registration calls on a fresh object, evaluatedFields
returns exactly the tags registered through addEvaluatedField and
dependentFields exactly the tags registered through addDependentField,
each in registration order; moreover registering an evaluated field
never changes the dependent list and registering a dependent field never
changes the evaluated list. -/
theorem evaluatorUtilities_separate_field_lists (Tag : Type)
    (ops : List (PHX.RegOp Tag)) :
    PHX.evaluatedFields
        (PHX.applyRegOps (PHX.emptyEvaluatorUtilities Tag) ops) =
      PHX.evaluatedTags ops ∧
    PHX.dependentFields
        (PHX.applyRegOps (PHX.emptyEvaluatorUtilities Tag) ops) =
      PHX.dependentTags ops ∧
    (∀ (e : PHX.EvaluatorUtilities Tag) (v : Tag),
      PHX.dependentFields (PHX.addEvaluatedField e v) =
        PHX.dependentFields e) ∧
    (∀ (e : PHX.EvaluatorUtilities Tag) (v : Tag),
      PHX.evaluatedFields (PHX.addDependentField e v) =
        PHX.evaluatedFields e) := by
  have h := PHX.applyRegOps_spec (PHX.emptyEvaluatorUtilities Tag) ops
  refine ⟨?_, ?_, ?_, ?_⟩
  · simpa [PHX.emptyEvaluatorUtilities, PHX.evaluatedFields] using h.1
  · simpa [PHX.emptyEvaluatorUtilities, PHX.dependentFields] using h.2
  · intro e v
    rfl
  · intro e v
    rfl

/-- C8: in every number-of-objects statistics table of the captured
load-balancing log, before and after partitioning, the Sum equals 380
and Min is at most Max which is at most Sum. -/
theorem objectCount_stats_conserved :
    ∀ t ∈ ZoltanLog.objectCountStats,
      t.statSum = 380 ∧ t.statMin ≤ t.statMax ∧ t.statMax ≤ t.statSum := by
  decide

/-- Witness for C8: the after-load-balancing DRIVER EVAL objs row. -/
theorem objectCount_stats_conserved_witness :
    ({ afterLB := true, table := "DRIVER EVAL objs", statMin := 0,
       statMax := 285, statSum := 380 } : ZoltanLog.ObjCountStat).statSum
        = 380 ∧
    ({ afterLB := true, table := "DRIVER EVAL objs", statMin := 0,
       statMax := 285, statSum := 380 } : ZoltanLog.ObjCountStat).statMin ≤
      ({ afterLB := true, table := "DRIVER EVAL objs", statMin := 0,
         statMax := 285, statSum := 380 } : ZoltanLog.ObjCountStat).statMax ∧
    ({ afterLB := true, table := "DRIVER EVAL objs", statMin := 0,
       statMax := 285, statSum := 380 } : ZoltanLog.ObjCountStat).statMax ≤
      ({ afterLB := true, table := "DRIVER EVAL objs", statMin := 0,
         statMax := 285, statSum := 380 } : ZoltanLog.ObjCountStat).statSum :=
  objectCount_stats_conserved
    { afterLB := true, table := "DRIVER EVAL objs", statMin := 0,
      statMax := 285, statSum := 380 } (by decide)

/-- C9: switchActiveCrsMatrix toggles the active-matrix flag, mapping
FE_ACTIVE_OVERLAP to FE_ACTIVE_LOCAL and any other flag value to
FE_ACTIVE_OVERLAP; two consecutive calls restore the original state, and
the flag is the only state the call changes. -/
theorem switchActiveCrsMatrix_toggles_flag_only (M R : Type)
    (A : Tpetra.FECrsMatrix M R) :
    ((Tpetra.switchActiveCrsMatrix A).activeCrsMatrix_ =
       if A.activeCrsMatrix_ = Tpetra.FEWhichActive.FE_ACTIVE_OVERLAP then
         Tpetra.FEWhichActive.FE_ACTIVE_LOCAL
       else
         Tpetra.FEWhichActive.FE_ACTIVE_OVERLAP) ∧
    Tpetra.switchActiveCrsMatrix (Tpetra.switchActiveCrsMatrix A) = A ∧
    (Tpetra.switchActiveCrsMatrix A).inactiveCrsMatrix_ =
      A.inactiveCrsMatrix_ ∧
    (Tpetra.switchActiveCrsMatrix A).rest = A.rest := by
  obtain ⟨flag, inact, rest⟩ := A
  cases flag <;> simp [Tpetra.switchActiveCrsMatrix]

/-- C10: FECrsMatrix::operator= returns the target itself, leaves every
field of the target unchanged, and reads nothing from the right-hand
side: the result is the same for every right-hand side. -/
theorem feCrsMatrix_assign_returns_target_unchanged (M R : Type)
    (self rhs rhs2 : Tpetra.FECrsMatrix M R) :
    Tpetra.assignFECrsMatrix self rhs = self ∧
    (Tpetra.assignFECrsMatrix self rhs).activeCrsMatrix_ =
      self.activeCrsMatrix_ ∧
    (Tpetra.assignFECrsMatrix self rhs).inactiveCrsMatrix_ =
      self.inactiveCrsMatrix_ ∧
    (Tpetra.assignFECrsMatrix self rhs).rest = self.rest ∧
    Tpetra.assignFECrsMatrix self rhs = Tpetra.assignFECrsMatrix self rhs2 :=
  ⟨rfl, rfl, rfl, rfl, rfl⟩
